import Mathlib

/-!
Shallow embedding of the ply.ink PDF viewer (frontend/src).

The definitions below translate, function by function, the state-updating
logic of `App.tsx`, the `PDFViewer` component (its `renderPage`,
`handleKeyDown`, `handleWheel` closures) and `lib/pdf-worker.ts`.
React `useState` setters become explicit record updates; the asynchronous
rasterization pipeline becomes an event-driven state machine whose
environment (the rendering backend and the event loop) supplies the
interleaving and the outcome of each raster operation.
-/

namespace Ply

/-! ### Geometry / scale policy

`App.tsx` `handleZoomIn` / `handleZoomOut` (lines 118-124) and the identical
expressions in the viewer key handler; `handleWheel` (wheel zoom). JS numbers
are modelled as rationals; the literals 1.2, 0.9, 1.1, 0.5 and 3 appear in
the source as written. -/

/-- `setScale(prev => Math.min(prev * 1.2, 3))` from `App.tsx` / key handler. -/
def zoomIn (s : ℚ) : ℚ := min (s * (6/5)) 3

/-- `setScale(prev => Math.max(prev / 1.2, 0.5))` from `App.tsx` / key handler. -/
def zoomOut (s : ℚ) : ℚ := max (s / (6/5)) (1/2)

/-- Wheel zoom from the viewer `handleWheel`:
`delta = event.deltaY > 0 ? 0.9 : 1.1; setScale(prev => Math.max(0.5, Math.min(3, prev * delta)))`. -/
def wheelZoom (s deltaY : ℚ) : ℚ :=
  max (1/2) (min 3 (s * (if 0 < deltaY then 9/10 else 11/10)))

/-! ### Application-level state (`App.tsx`) -/

/-- A loaded document handle (`PDFDocumentProxy`): only `numPages` is observed. -/
structure PDFDoc where
  numPages : Int
deriving DecidableEq

/-- A browser `File`: the viewer observes its `name` and MIME `type`. -/
structure JSFile where
  name : String
  type : String
deriving DecidableEq

/-- Toolbar tool mode (`types/pdf.ts` `ToolType`). -/
inductive Tool
  | cursor
  | hand
deriving DecidableEq

/-- The nine `useState` fields of the `App` component. -/
structure AppState where
  currentFile : Option JSFile
  pdf : Option PDFDoc
  currentPage : Int
  totalPages : Int
  scale : ℚ
  loading : Bool
  error : Option String
  sidebarOpen : Bool
  currentTool : Tool
deriving DecidableEq

/-- Initial values of the `useState` calls in `App.tsx`. -/
def initialAppState : AppState :=
  { currentFile := none, pdf := none, currentPage := 1, totalPages := 0,
    scale := 6/5, loading := false, error := none, sidebarOpen := false,
    currentTool := Tool.cursor }

/-- `isPDFFile` from `lib/pdf-worker.ts`: `file.type === 'application/pdf'`. -/
def isPDFFile (f : JSFile) : Bool := f.type = "application/pdf"

/-- `handleFileChange` from `App.tsx`: the picked file (if any) becomes the
current file when it passes `isPDFFile`, otherwise only the error is set. -/
def handleFileChange (st : AppState) (picked : Option JSFile) : AppState :=
  match picked with
  | none => st
  | some file =>
    if isPDFFile file then { st with currentFile := some file, error := none }
    else { st with error := some "Please select a valid PDF file" }

/-- `handleDrop` from `App.tsx` (same shape as `handleFileChange`, different message). -/
def handleDrop (st : AppState) (dropped : Option JSFile) : AppState :=
  match dropped with
  | none => st
  | some file =>
    if isPDFFile file then { st with currentFile := some file, error := none }
    else { st with error := some "Please drop a valid PDF file" }

/-- `handleClosePDF` from `App.tsx`: resets file, document, page, total,
scale, error, and sidebar. It does not touch `loading` or `currentTool`. -/
def handleClosePDF (st : AppState) : AppState :=
  { st with currentFile := none, pdf := none, currentPage := 1, totalPages := 0,
            scale := 6/5, error := none, sidebarOpen := false }

/-- `handleExportFile` from `App.tsx`. The blob construction/download may
throw (modelled by `exportSucceeds`); on success the PDF is closed, on
failure an error message is set. With no current file it is a no-op. -/
def handleExportFile (st : AppState) (exportSucceeds : Bool) : AppState :=
  match st.currentFile with
  | none => st
  | some _ =>
    if exportSucceeds then handleClosePDF st
    else { st with error := some "Failed to export PDF" }

/-- `handleLoadSuccess` from `App.tsx`. -/
def handleLoadSuccess (st : AppState) (doc : PDFDoc) : AppState :=
  { st with pdf := some doc, totalPages := doc.numPages, currentPage := 1,
            loading := false }

/-- `handleLoadError` from `App.tsx`: `setError(error.message); setLoading(false)`. -/
def handleLoadError (st : AppState) (message : String) : AppState :=
  { st with error := some message, loading := false }

/-- The `loadPDF` flow of the viewer surfaced at the `App` level: the backend
either yields a document (then `onLoadSuccess`) or rejects the bytes with a
parse error (then `onLoadError` with the error message). -/
def loadPDF (st : AppState) (outcome : Except String PDFDoc) : AppState :=
  match outcome with
  | Except.ok doc => handleLoadSuccess st doc
  | Except.error message => handleLoadError st message

/-- `handlePageChange` from `App.tsx`: `if (page >= 1 && page <= totalPages)
setCurrentPage(page)`; returns the new `currentPage`. -/
def handlePageChange (totalPages currentPage page : Int) : Int :=
  if 1 ≤ page ∧ page ≤ totalPages then page else currentPage

/-- `handlePrevPage` from `App.tsx`. -/
def handlePrevPage (currentPage : Int) : Int :=
  if 1 < currentPage then currentPage - 1 else currentPage

/-- `handleNextPage` from `App.tsx`. -/
def handleNextPage (currentPage totalPages : Int) : Int :=
  if currentPage < totalPages then currentPage + 1 else currentPage

/-! ### Viewer keyboard handler

`handleKeyDown` of the `PDFViewer` component (the copy with the text-input
guard and the scroll-boundary checks for ArrowUp/ArrowDown). The DOM
environment supplies the focus target and the scroll-container geometry. -/

/-- DOM facts the key handler reads: whether the event target is a
text-input-like element, and the scroll container (existence and geometry). -/
structure KeyEnv where
  targetIsTextInput : Bool
  containerExists : Bool
  scrollTop : ℚ
  clientHeight : ℚ
  scrollHeight : ℚ
deriving DecidableEq

/-- Viewer-local state read or written by the key handler (uncontrolled
mode: `externalCurrentPage` undefined, so arrows call `setCurrentPage`). -/
structure ViewerState where
  pdf : Option PDFDoc
  page : Int
  scale : ℚ
  loading : Bool
  error : Option String
deriving DecidableEq

/-- `handleKeyDown` from the viewer: early return without a document or when
typing in an input; arrows move the page inside `[1, numPages]` (up/down only
at the scroll boundaries); `+`/`=`/`-` apply the zoom policy. -/
def handleKeyDown (st : ViewerState) (env : KeyEnv) (key : String) : ViewerState :=
  match st.pdf with
  | none => st
  | some doc =>
    if env.targetIsTextInput then st
    else if key = "ArrowLeft" then
      if 1 < st.page then { st with page := st.page - 1 } else st
    else if key = "ArrowRight" then
      if st.page < doc.numPages then { st with page := st.page + 1 } else st
    else if key = "ArrowUp" then
      if 1 < st.page then
        if env.containerExists && decide (env.scrollTop = 0) then
          { st with page := st.page - 1 }
        else st
      else st
    else if key = "ArrowDown" then
      if st.page < doc.numPages then
        if env.containerExists &&
            decide (env.scrollHeight - 5 ≤ env.scrollTop + env.clientHeight) then
          { st with page := st.page + 1 }
        else st
      else st
    else if key = "+" ∨ key = "=" then { st with scale := zoomIn st.scale }
    else if key = "-" then { st with scale := zoomOut st.scale }
    else st

/-! ### Render pipeline (`renderPage` of the viewer)

Each run of the render effect executes `renderPage(activePage)`:

1. synchronously: `setLoading(true)`; if `renderTaskRef.current` is set,
   `cancel()` it and null the ref;
2. `await pdf.getPage(pageNumber)` — a suspension point;
3. synchronously: resize (and thereby clear) the canvas, start
   `page.render(...)` and store the task in `renderTaskRef.current`;
4. `await renderTaskRef.current.promise` — a suspension point;
5. on resolve: null the ref, the canvas now shows the page, call
   `onPageChange(pageNumber)`; on reject: if the error name is not
   `'RenderingCancelledException'`, call `onLoadError(error)`;
6. finally: `setLoading(false)`.

The event loop interleaves these runs; the backend chooses each raster
outcome. Both are modelled by an externally supplied event trace. Each
invocation of `renderPage` is a session, identified by its creation index. -/

/-- Where a `renderPage` invocation currently is: before `getPage` resolves,
while its raster task is outstanding, or finished. -/
inductive Phase
  | awaitingGetPage
  | rastering
  | finished
deriving DecidableEq

/-- One `renderPage` invocation: its target page and scale, its phase, and
whether `cancel()` was invoked on its render task. -/
structure Session where
  page : Int
  scale : ℚ
  phase : Phase
  cancelled : Bool
deriving DecidableEq

/-- Callbacks the viewer emits to its collaborators (`App`). -/
inductive REvent
  | pageChange (page : Int)
  | loadError (name : String)
deriving DecidableEq

/-- How the backend settles a raster promise: resolution, or rejection with
an error of the given name (cancellation rejects with
`"RenderingCancelledException"`). -/
inductive Outcome
  | resolved
  | rejected (name : String)
deriving DecidableEq

/-- Events scheduled by the environment: the effect invokes `renderPage`
for a new `(page, scale)`, a session's `getPage` resolves, or a session's
raster promise settles. -/
inductive ExtEvent
  | request (page : Int) (scale : ℚ)
  | pageReady (sid : Nat)
  | rasterDone (sid : Nat) (outcome : Outcome)
deriving DecidableEq

/-- Manager state: all sessions so far (index = session id),
`renderTaskRef.current` as the id of the session whose task it holds, the
committed canvas content, the emitted callbacks, and the loading flag. -/
structure RState where
  sessions : List Session
  ref : Option Nat
  canvas : Option (Int × ℚ)
  events : List REvent
  loading : Bool
deriving DecidableEq

/-- State before any render request. -/
def initialRState : RState :=
  { sessions := [], ref := none, canvas := none, events := [], loading := false }

/-- Step 1 of `renderPage`: `if (renderTaskRef.current) {
renderTaskRef.current.cancel(); renderTaskRef.current = null }`. -/
def cancelCurrent (s : RState) : RState :=
  match s.ref with
  | none => s
  | some r =>
    match s.sessions[r]? with
    | some sess =>
      { s with sessions := s.sessions.set r { sess with cancelled := true },
               ref := none }
    | none => { s with ref := none }

/-- A freshly created session for a new `renderPage` invocation. -/
def newSession (page : Int) (scale : ℚ) : Session :=
  { page := page, scale := scale, phase := Phase.awaitingGetPage,
    cancelled := false }

/-- One environment event applied to the manager state, following the
source control flow of `renderPage` described above. -/
def step (s : RState) (e : ExtEvent) : RState :=
  match e with
  | ExtEvent.request page scale =>
    let s1 := cancelCurrent { s with loading := true }
    { s1 with sessions := s1.sessions ++ [newSession page scale] }
  | ExtEvent.pageReady sid =>
    match s.sessions[sid]? with
    | some sess =>
      if sess.phase = Phase.awaitingGetPage then
        { s with sessions := s.sessions.set sid { sess with phase := Phase.rastering },
                 ref := some sid,
                 canvas := none }
      else s
    | none => s
  | ExtEvent.rasterDone sid outcome =>
    match s.sessions[sid]? with
    | some sess =>
      if sess.phase = Phase.rastering then
        let s1 := { s with
          sessions := s.sessions.set sid { sess with phase := Phase.finished },
          loading := false }
        match outcome with
        | Outcome.resolved =>
          { s1 with ref := none,
                    canvas := some (sess.page, sess.scale),
                    events := s1.events ++ [REvent.pageChange sess.page] }
        | Outcome.rejected name =>
          if name = "RenderingCancelledException" then s1
          else { s1 with events := s1.events ++ [REvent.loadError name] }
      else s
    | none => s

/-- Run a trace of environment events from the initial state. -/
def run (tr : List ExtEvent) : RState :=
  tr.foldl step initialRState

/-- No session is still awaiting its `getPage` result. -/
def noAwaiting (s : RState) : Bool :=
  s.sessions.all (fun sess => decide (sess.phase ≠ Phase.awaitingGetPage))

/-- Requirement on a single event: a new render request only arrives once no
session is between its cancellation pass and the creation of its task. -/
def requestHead (s : RState) (e : ExtEvent) : Bool :=
  match e with
  | ExtEvent.request _ _ => noAwaiting s
  | _ => true

/-- Requirement on a single event: a raster whose task was cancelled settles
only by rejecting with `"RenderingCancelledException"` (the backend honors
cancellation). -/
def honorsHead (s : RState) (e : ExtEvent) : Bool :=
  match e with
  | ExtEvent.rasterDone sid outcome =>
    match s.sessions[sid]? with
    | some sess =>
      !sess.cancelled || decide (outcome = Outcome.rejected "RenderingCancelledException")
    | none => true
  | _ => true

/-- Observation on a single event: if a raster settles for a live session
that is no longer the latest one, the step emits no callback and leaves the
canvas untouched. -/
def staleHead (s : RState) (e : ExtEvent) : Bool :=
  match e with
  | ExtEvent.rasterDone sid _ =>
    match s.sessions[sid]? with
    | some sess =>
      if sess.phase = Phase.rastering ∧ sid + 1 ≠ s.sessions.length then
        decide ((step s e).events = s.events) && decide ((step s e).canvas = s.canvas)
      else true
    | none => true
  | _ => true

/-- Every request in the trace arrives with no session awaiting `getPage`. -/
def seqStartsOK (s : RState) : List ExtEvent → Bool
  | [] => true
  | e :: tr => requestHead s e && seqStartsOK (step s e) tr

/-- Every raster settlement in the trace honors cancellation. -/
def honorsCancelOK (s : RState) : List ExtEvent → Bool
  | [] => true
  | e :: tr => honorsHead s e && honorsCancelOK (step s e) tr

/-- Along the whole trace, settlements of superseded (non-latest) live
sessions are discarded: no callback, no canvas change. -/
def staleDiscarded (s : RState) : List ExtEvent → Bool
  | [] => true
  | e :: tr => staleHead s e && staleDiscarded (step s e) tr

/-- Along the whole trace, a raster of a cancelled live session that
resolves successfully produces no callback and no canvas change. -/
def cancelledSilent (s : RState) : List ExtEvent → Bool
  | [] => true
  | e :: tr =>
    (match e with
     | ExtEvent.rasterDone sid Outcome.resolved =>
       match s.sessions[sid]? with
       | some sess =>
         if sess.phase = Phase.rastering ∧ sess.cancelled = true then
           decide ((step s e).events = s.events) && decide ((step s e).canvas = s.canvas)
         else true
       | none => true
     | _ => true) && cancelledSilent (step s e) tr

/-- Along the whole trace, a raster failure with a non-cancellation error is
surfaced only when the failing live session is still the latest one. -/
def errorsOnlyLatest (s : RState) : List ExtEvent → Bool
  | [] => true
  | e :: tr =>
    (match e with
     | ExtEvent.rasterDone sid (Outcome.rejected name) =>
       match s.sessions[sid]? with
       | some sess =>
         if sess.phase = Phase.rastering ∧ name ≠ "RenderingCancelledException" ∧
             sid + 1 ≠ s.sessions.length then
           decide ((step s e).events = s.events)
         else true
       | none => true
     | _ => true) && errorsOnlyLatest (step s e) tr

/-! ### Invariant of the render manager

Used to prove that, when every request arrives after the previous `getPage`
resolved and the backend honors cancellation, only the latest session can
commit. -/

/-- A live (rastering) session that was never cancelled is the newest
session, and `renderTaskRef` holds its task. -/
def InvActive (s : RState) : Prop :=
  ∀ sid sess, s.sessions[sid]? = some sess → sess.phase = Phase.rastering →
    sess.cancelled = false → sid + 1 = s.sessions.length ∧ s.ref = some sid

/-- `renderTaskRef` never points at a session whose `getPage` has not
resolved (such a session has no task yet). -/
def InvRef (s : RState) : Prop :=
  ∀ r, s.ref = some r →
    ∃ sess, s.sessions[r]? = some sess ∧ sess.phase ≠ Phase.awaitingGetPage

/-- A session still awaiting `getPage` is the newest session. -/
def InvAwait (s : RState) : Prop :=
  ∀ sid sess, s.sessions[sid]? = some sess →
    sess.phase = Phase.awaitingGetPage → sid + 1 = s.sessions.length

/-- Conjunction of the manager invariants. -/
def Inv (s : RState) : Prop := InvActive s ∧ InvRef s ∧ InvAwait s

/-! ### Concrete traces -/

/-- Two overlapping requests; both rasters resolve, the superseded one
last (out-of-order completion with a backend that ignores cancellation). -/
def trOutOfOrder : List ExtEvent :=
  [ExtEvent.request 1 1, ExtEvent.pageReady 0, ExtEvent.request 2 1,
   ExtEvent.pageReady 1, ExtEvent.rasterDone 1 Outcome.resolved,
   ExtEvent.rasterDone 0 Outcome.resolved]

/-- Two overlapping requests with a backend that honors cancellation: the
superseded raster rejects with the cancellation error, the latest resolves. -/
def trSupersede : List ExtEvent :=
  [ExtEvent.request 1 1, ExtEvent.pageReady 0, ExtEvent.request 2 1,
   ExtEvent.pageReady 1,
   ExtEvent.rasterDone 0 (Outcome.rejected "RenderingCancelledException"),
   ExtEvent.rasterDone 1 Outcome.resolved]

/-- A first request whose task is cancelled by a second request, after
which the cancelled raster nevertheless resolves successfully. -/
def trCancelledResolves : List ExtEvent :=
  [ExtEvent.request 1 1, ExtEvent.pageReady 0, ExtEvent.request 2 1,
   ExtEvent.rasterDone 0 Outcome.resolved]

/-- Prefix of `trCancelledResolves`: session 0 is rastering and cancelled,
session 1 is the latest. -/
def trCancelPrefix : List ExtEvent :=
  [ExtEvent.request 1 1, ExtEvent.pageReady 0, ExtEvent.request 2 1]

/-- A superseded session fails with a non-cancellation error while a newer
session is the latest. -/
def trStaleError : List ExtEvent :=
  [ExtEvent.request 1 1, ExtEvent.pageReady 0, ExtEvent.request 2 1,
   ExtEvent.pageReady 1, ExtEvent.rasterDone 0 (Outcome.rejected "RenderError")]

/-- A single request whose raster is outstanding. -/
def trOneRastering : List ExtEvent :=
  [ExtEvent.request 1 1, ExtEvent.pageReady 0]

/-! ### Concrete states used to evaluate the model -/

/-- App state with a five-page document loaded and page 3 current. -/
def stLoaded : AppState :=
  { initialAppState with
    currentFile := some { name := "doc.pdf", type := "application/pdf" },
    pdf := some { numPages := 5 }, totalPages := 5, currentPage := 3 }

/-- App state with a four-page document loaded, a render in flight
(`loading = true`), and the hand tool selected. -/
def stBusy : AppState :=
  { initialAppState with
    currentFile := some { name := "doc.pdf", type := "application/pdf" },
    pdf := some { numPages := 4 }, totalPages := 4, loading := true,
    currentTool := Tool.hand }

/-- Viewer state with a five-page document on page 2. -/
def vstLoaded : ViewerState :=
  { pdf := some { numPages := 5 }, page := 2, scale := 1, loading := false,
    error := none }

/-- Viewer state with no document loaded. -/
def vstEmpty : ViewerState :=
  { pdf := none, page := 3, scale := 1, loading := true, error := some "boom" }

/-- A DOM environment: focus outside text inputs, scroll container present
and fully visible. -/
def envPlain : KeyEnv :=
  { targetIsTextInput := false, containerExists := true, scrollTop := 0,
    clientHeight := 10, scrollHeight := 10 }

/-! ### C4 — load failure handling -/

/-- C4 counterexample: with a document already loaded, a parse failure on a
newly picked file surfaces the message but does not reset the document state
to empty — the old handle and page count survive, contradicting the claim
that the state is reset (no document handle, no pages). -/
theorem load_error_keeps_document :
    (loadPDF stLoaded (Except.error "Invalid PDF structure")).error =
      some "Invalid PDF structure" ∧
    (loadPDF stLoaded (Except.error "Invalid PDF structure")).pdf =
      some { numPages := 5 } ∧
    (loadPDF stLoaded (Except.error "Invalid PDF structure")).totalPages = 5 ∧
    ¬ ((loadPDF stLoaded (Except.error "Invalid PDF structure")).pdf = none ∧
       (loadPDF stLoaded (Except.error "Invalid PDF structure")).totalPages = 0) := by
  with_unfolding_all decide

/-- C4 (amended): when the backend rejects the bytes, the error message is
surfaced as a user-visible message and loading stops, but the document state
is left unchanged rather than reset: handle, page count, current page,
current file and scale all keep their previous values. -/
theorem load_error_surfaces_and_preserves (st : AppState) (msg : String) :
    (loadPDF st (Except.error msg)).error = some msg ∧
    (loadPDF st (Except.error msg)).loading = false ∧
    (loadPDF st (Except.error msg)).pdf = st.pdf ∧
    (loadPDF st (Except.error msg)).totalPages = st.totalPages ∧
    (loadPDF st (Except.error msg)).currentPage = st.currentPage ∧
    (loadPDF st (Except.error msg)).currentFile = st.currentFile ∧
    (loadPDF st (Except.error msg)).scale = st.scale := by
  simp [loadPDF, handleLoadError]

/-! ### C5 — wheel zoom -/

/-- C5 counterexample: the wheel factor for `deltaY > 0` is the literal 0.9
from the source, not `1/1.1`: at scale 1 the code yields 9/10 while the
claimed formula yields 10/11. -/
theorem wheel_zoom_not_reciprocal :
    wheelZoom 1 1 = 9/10 ∧
    wheelZoom 1 1 ≠ max (1/2) (min 3 ((1:ℚ) * (1/(11/10)))) := by
  with_unfolding_all decide

/-- C5 (amended): wheel zoom multiplies the scale by 0.9 when `deltaY > 0`
and by 1.1 otherwise (not by `1/1.1` and 1.1), and the result is clamped to
`[0.5, 3.0]`. -/
theorem wheelZoom_spec (s d : ℚ) :
    (0 < d → wheelZoom s d = max (1/2) (min 3 (s * (9/10)))) ∧
    (d ≤ 0 → wheelZoom s d = max (1/2) (min 3 (s * (11/10)))) ∧
    1/2 ≤ wheelZoom s d ∧ wheelZoom s d ≤ 3 := by
  refine ⟨fun h => ?_, fun h => ?_, le_max_left _ _, max_le (by norm_num) (min_le_left _ _)⟩
  · rw [wheelZoom, if_pos h]
  · rw [wheelZoom, if_neg (not_lt.mpr h)]

/-- C5 witness: the amended statement evaluated at scale 2, `deltaY = 1`. -/
theorem wheelZoom_spec_witness :
    wheelZoom 2 1 = max (1/2) (min 3 ((2:ℚ) * (9/10))) ∧
    1/2 ≤ wheelZoom 2 1 ∧ wheelZoom 2 1 ≤ 3 :=
  ⟨(wheelZoom_spec 2 1).1 (by norm_num), (wheelZoom_spec 2 1).2.2.1,
   (wheelZoom_spec 2 1).2.2.2⟩

/-! ### C6 — zoom in/out clamping -/

/-- C6 counterexample: each zoom step clamps only one side, so out-of-range
inputs escape `[0.5, 3.0]`: `zoomOut 10 = 25/3 > 3` and
`zoomIn (1/10) = 3/25 < 1/2`. -/
theorem zoom_not_clamped_for_all_inputs :
    zoomOut 10 = 25/3 ∧ ¬ zoomOut (10:ℚ) ≤ 3 ∧
    zoomIn (1/10) = 3/25 ∧ ¬ (1/2 : ℚ) ≤ zoomIn (1/10) := by
  with_unfolding_all decide

/-- C6 (amended): for every input scale already inside `[0.5, 3.0]` (the
range the viewer maintains), zoom-in and zoom-out stay inside `[0.5, 3.0]`;
in particular `zoomIn 2.8 = 3` and `zoomOut 0.55 = 0.5`. -/
theorem zoom_clamped_on_range :
    (∀ s : ℚ, 1/2 ≤ s → s ≤ 3 →
      1/2 ≤ zoomIn s ∧ zoomIn s ≤ 3 ∧ 1/2 ≤ zoomOut s ∧ zoomOut s ≤ 3) ∧
    zoomIn (14/5) = 3 ∧ zoomOut (11/20) = 1/2 := by
  refine ⟨fun s h1 h2 => ⟨?_, min_le_right _ _, le_max_right _ _, ?_⟩,
    by with_unfolding_all rfl, by with_unfolding_all rfl⟩
  · exact le_min (by linarith) (by norm_num)
  · refine max_le ?_ (by norm_num)
    have h3 : s / (6/5) = s * (5/6) := by ring
    rw [h3]; linarith

/-- C6 witness: the amended statement evaluated at scale 1. -/
theorem zoom_clamped_witness :
    1/2 ≤ zoomIn 1 ∧ zoomIn 1 ≤ 3 ∧ 1/2 ≤ zoomOut 1 ∧ zoomOut 1 ≤ 3 :=
  zoom_clamped_on_range.1 1 (by norm_num) (by norm_num)

/-! ### C7 — page intents stay in range -/

/-- C7 (confirmed): with a document loaded and the current page in
`[1, pageCount]`, every page-jump (`handlePageChange`), page-delta
(`handlePrevPage`/`handleNextPage`) and keyboard intent keeps the current
page in `[1, pageCount]`, and an out-of-range jump is a silent no-op. -/
theorem page_intents_stay_in_range :
    (∀ totalPages currentPage page : Int,
      1 ≤ currentPage → currentPage ≤ totalPages →
      (1 ≤ handlePageChange totalPages currentPage page ∧
        handlePageChange totalPages currentPage page ≤ totalPages) ∧
      (¬ (1 ≤ page ∧ page ≤ totalPages) →
        handlePageChange totalPages currentPage page = currentPage) ∧
      (1 ≤ handlePrevPage currentPage ∧ handlePrevPage currentPage ≤ totalPages) ∧
      (1 ≤ handleNextPage currentPage totalPages ∧
        handleNextPage currentPage totalPages ≤ totalPages)) ∧
    (∀ (st : ViewerState) (env : KeyEnv) (key : String) (doc : PDFDoc),
      st.pdf = some doc → 1 ≤ st.page → st.page ≤ doc.numPages →
      1 ≤ (handleKeyDown st env key).page ∧
      (handleKeyDown st env key).page ≤ doc.numPages) := by
  constructor
  · intro totalPages currentPage page h1 h2
    refine ⟨?_, fun h3 => ?_, ?_, ?_⟩
    · unfold handlePageChange; split_ifs <;> omega
    · unfold handlePageChange; rw [if_neg h3]
    · unfold handlePrevPage; split_ifs <;> omega
    · unfold handleNextPage; split_ifs <;> omega
  · intro st env key doc hpdf h1 h2
    obtain ⟨p0, pg0, sc0, ld0, er0⟩ := st
    simp only at hpdf h1 h2
    subst hpdf
    simp only [handleKeyDown]
    split_ifs <;> simp_all <;> omega

/-- C7 witness: concrete page intents on a five-page document. -/
theorem page_intents_witness :
    (1 ≤ handlePageChange 5 2 9 ∧ handlePageChange 5 2 9 ≤ 5) ∧
    (handlePageChange 5 2 9 = 2) ∧
    (1 ≤ (handleKeyDown vstLoaded envPlain "ArrowRight").page ∧
      (handleKeyDown vstLoaded envPlain "ArrowRight").page ≤ 5) :=
  ⟨(page_intents_stay_in_range.1 5 2 9 (by decide) (by decide)).1,
   (page_intents_stay_in_range.1 5 2 9 (by decide) (by decide)).2.1 (by decide),
   page_intents_stay_in_range.2 vstLoaded envPlain "ArrowRight"
     { numPages := 5 } rfl (by decide) (by decide)⟩

/-! ### C8 — arrow key with no document -/

/-- C8 (confirmed): with no document loaded, an arrow-right key event leaves
the entire viewer state (page, scale, loading, error) unchanged and raises
no error — `handleKeyDown` returns the state untouched. -/
theorem no_document_arrow_noop (st : ViewerState) (env : KeyEnv)
    (h : st.pdf = none) : handleKeyDown st env "ArrowRight" = st := by
  unfold handleKeyDown; rw [h]

/-- C8 witness: arrow-right on a concrete empty viewer state. -/
theorem no_document_arrow_noop_witness :
    handleKeyDown vstEmpty envPlain "ArrowRight" = vstEmpty :=
  no_document_arrow_noop vstEmpty envPlain rfl

/-! ### C9 — PDF MIME validation -/

/-- C9 (confirmed): a picked or dropped file becomes the current file
exactly when its MIME type is the string `application/pdf`; otherwise only
the error message changes and the rest of the state (including the loaded
document) is untouched. The check reads nothing but the `type` field, so no
extension or content sniffing occurs. -/
theorem file_accept_iff_pdf_mime :
    (∀ (st : AppState) (f : JSFile),
      (isPDFFile f = true →
        handleFileChange st (some f) = { st with currentFile := some f, error := none } ∧
        handleDrop st (some f) = { st with currentFile := some f, error := none }) ∧
      (isPDFFile f = false →
        handleFileChange st (some f) =
          { st with error := some "Please select a valid PDF file" } ∧
        handleDrop st (some f) =
          { st with error := some "Please drop a valid PDF file" }) ∧
      (isPDFFile f = true ↔ f.type = "application/pdf")) ∧
    (∀ f g : JSFile, f.type = g.type → isPDFFile f = isPDFFile g) := by
  constructor
  · intro st f
    refine ⟨fun h => ?_, fun h => ?_, ?_⟩
    · rw [handleFileChange, handleDrop, h]; exact ⟨rfl, rfl⟩
    · rw [handleFileChange, handleDrop, h]; exact ⟨rfl, rfl⟩
    · simp [isPDFFile]
  · intro f g h
    rw [isPDFFile, isPDFFile, h]

/-- C9 witness: a PDF-typed file is adopted; a text file only sets the
error. -/
theorem file_accept_witness :
    handleFileChange initialAppState (some { name := "a.pdf", type := "application/pdf" }) =
      { initialAppState with
        currentFile := some { name := "a.pdf", type := "application/pdf" },
        error := none } ∧
    handleDrop initialAppState (some { name := "b.txt", type := "text/plain" }) =
      { initialAppState with error := some "Please drop a valid PDF file" } :=
  ⟨((file_accept_iff_pdf_mime.1 initialAppState _).1 (by decide)).1,
   ((file_accept_iff_pdf_mime.1 initialAppState _).2.1 (by decide)).2⟩

/-! ### C10 — export closes the document -/

/-- C10 counterexample: `handleClosePDF` leaves `loading` unchanged as well
as the tool, so after a successful export with `loading = true` the flag
stays `true` — the selected tool is not the only piece of viewer state left
unchanged by close. -/
theorem close_leaves_loading_unchanged :
    (handleClosePDF stBusy).loading = true ∧
    (handleExportFile stBusy true).loading = true ∧
    (handleExportFile stBusy true).loading ≠ false ∧
    (handleClosePDF stBusy).currentTool = stBusy.currentTool := by
  with_unfolding_all decide

/-- C10 (amended): after a successful export of the current file the
document is closed — file and handle become `none`, page 1, zero pages,
scale 1.2, error cleared, sidebar closed — while both the selected tool and
the loading flag are left unchanged. -/
theorem export_closes_document (st : AppState) (f : JSFile)
    (h : st.currentFile = some f) :
    handleExportFile st true =
      { st with currentFile := none, pdf := none, currentPage := 1,
                totalPages := 0, scale := 6/5, error := none,
                sidebarOpen := false } ∧
    (handleExportFile st true).loading = st.loading ∧
    (handleExportFile st true).currentTool = st.currentTool := by
  unfold handleExportFile
  rw [h]
  exact ⟨rfl, rfl, rfl⟩

/-- C10 witness: export at a concrete busy state. -/
theorem export_closes_document_witness :
    handleExportFile stBusy true =
      { stBusy with currentFile := none, pdf := none, currentPage := 1,
                    totalPages := 0, scale := 6/5, error := none,
                    sidebarOpen := false } ∧
    (handleExportFile stBusy true).loading = stBusy.loading ∧
    (handleExportFile stBusy true).currentTool = stBusy.currentTool :=
  export_closes_document stBusy { name := "doc.pdf", type := "application/pdf" } rfl

/-! ### Step equations for the render manager -/

theorem sid_lt_length {s : RState} {sid : Nat} {sess : Session}
    (h : s.sessions[sid]? = some sess) : sid < s.sessions.length :=
  (List.getElem?_eq_some.mp h).1

theorem noAwaiting_spec {s : RState} (h : noAwaiting s = true) {i : Nat}
    {sess : Session} (hget : s.sessions[i]? = some sess) :
    sess.phase ≠ Phase.awaitingGetPage := by
  rw [noAwaiting, List.all_eq_true] at h
  simpa using h sess (List.getElem?_mem hget)

theorem step_request_none (s : RState) (p : Int) (sc : ℚ) (hr : s.ref = none) :
    step s (ExtEvent.request p sc) =
      { s with sessions := s.sessions ++ [newSession p sc], loading := true } := by
  simp [step, cancelCurrent, hr]

theorem step_request_some (s : RState) (p : Int) (sc : ℚ) (r : Nat) (sr : Session)
    (hr : s.ref = some r) (hg : s.sessions[r]? = some sr) :
    step s (ExtEvent.request p sc) =
      { s with sessions := (s.sessions.set r { sr with cancelled := true }) ++
                 [newSession p sc],
               ref := none, loading := true } := by
  simp [step, cancelCurrent, hr, hg]

theorem step_request_dangling (s : RState) (p : Int) (sc : ℚ) (r : Nat)
    (hr : s.ref = some r) (hg : s.sessions[r]? = none) :
    step s (ExtEvent.request p sc) =
      { s with sessions := s.sessions ++ [newSession p sc],
               ref := none, loading := true } := by
  simp [step, cancelCurrent, hr, hg]

theorem step_pageReady_none (s : RState) (sid : Nat)
    (hg : s.sessions[sid]? = none) : step s (ExtEvent.pageReady sid) = s := by
  simp [step, hg]

theorem step_pageReady_skip (s : RState) (sid : Nat) (sess : Session)
    (hg : s.sessions[sid]? = some sess)
    (hph : sess.phase ≠ Phase.awaitingGetPage) :
    step s (ExtEvent.pageReady sid) = s := by
  simp [step, hg, hph]

theorem step_pageReady_eq (s : RState) (sid : Nat) (sess : Session)
    (hg : s.sessions[sid]? = some sess)
    (hph : sess.phase = Phase.awaitingGetPage) :
    step s (ExtEvent.pageReady sid) =
      { s with sessions := s.sessions.set sid { sess with phase := Phase.rastering },
               ref := some sid, canvas := none } := by
  simp [step, hg, hph]

theorem step_rasterDone_none (s : RState) (sid : Nat) (o : Outcome)
    (hg : s.sessions[sid]? = none) : step s (ExtEvent.rasterDone sid o) = s := by
  simp [step, hg]

theorem step_rasterDone_skip (s : RState) (sid : Nat) (o : Outcome) (sess : Session)
    (hg : s.sessions[sid]? = some sess) (hph : sess.phase ≠ Phase.rastering) :
    step s (ExtEvent.rasterDone sid o) = s := by
  simp [step, hg, hph]

theorem step_rasterDone_resolved (s : RState) (sid : Nat) (sess : Session)
    (hg : s.sessions[sid]? = some sess) (hph : sess.phase = Phase.rastering) :
    step s (ExtEvent.rasterDone sid Outcome.resolved) =
      { s with sessions := s.sessions.set sid { sess with phase := Phase.finished },
               ref := none, canvas := some (sess.page, sess.scale),
               events := s.events ++ [REvent.pageChange sess.page],
               loading := false } := by
  simp [step, hg, hph]

theorem step_rasterDone_cancelled (s : RState) (sid : Nat) (sess : Session)
    (hg : s.sessions[sid]? = some sess) (hph : sess.phase = Phase.rastering) :
    step s (ExtEvent.rasterDone sid
        (Outcome.rejected "RenderingCancelledException")) =
      { s with sessions := s.sessions.set sid { sess with phase := Phase.finished },
               loading := false } := by
  simp [step, hg, hph]

theorem step_rasterDone_failed (s : RState) (sid : Nat) (sess : Session)
    (name : String) (hg : s.sessions[sid]? = some sess)
    (hph : sess.phase = Phase.rastering)
    (hname : name ≠ "RenderingCancelledException") :
    step s (ExtEvent.rasterDone sid (Outcome.rejected name)) =
      { s with sessions := s.sessions.set sid { sess with phase := Phase.finished },
               events := s.events ++ [REvent.loadError name],
               loading := false } := by
  simp [step, hg, hph, hname]

/-! ### Invariant preservation -/

theorem inv_init : Inv initialRState := by
  refine ⟨?_, ?_, ?_⟩
  · intro sid sess h; simp [initialRState] at h
  · intro r h; simp [initialRState] at h
  · intro sid sess h; simp [initialRState] at h

theorem inv_step (s : RState) (e : ExtEvent) (hinv : Inv s)
    (hreq : requestHead s e = true) (hhon : honorsHead s e = true) :
    Inv (step s e) := by
  obtain ⟨hact, href, hawait⟩ := hinv
  have hnoerr : True := trivial
  cases e with
  | request page scale =>
    have hnoaw : noAwaiting s = true := by simpa [requestHead] using hreq
    rcases hr : s.ref with _ | r
    · rw [step_request_none s page scale hr]
      refine ⟨?_, ?_, ?_⟩
      · intro sid sess hget hph hc
        simp only at hget
        by_cases hlt : sid < s.sessions.length
        · rw [List.getElem?_append_left hlt] at hget
          have h2 := (hact sid sess hget hph hc).2
          rw [hr] at h2
          exact absurd h2 (by simp)
        · push_neg at hlt
          rw [List.getElem?_append_right hlt] at hget
          rcases hj : sid - s.sessions.length with _ | j
          · rw [hj] at hget
            simp [newSession] at hget
            rw [← hget] at hph
            simp at hph
          · rw [hj] at hget
            simp at hget
      · intro r0 h0
        simp only at h0
        rw [hr] at h0
        exact absurd h0 (by simp)
      · intro sid sess hget hph
        simp only at hget ⊢
        by_cases hlt : sid < s.sessions.length
        · rw [List.getElem?_append_left hlt] at hget
          exact absurd hph (noAwaiting_spec hnoaw hget)
        · push_neg at hlt
          rw [List.getElem?_append_right hlt] at hget
          rcases hj : sid - s.sessions.length with _ | j
          · have : sid = s.sessions.length := by omega
            simp [this, List.length_append]
          · rw [hj] at hget
            simp at hget
    · rcases hg : s.sessions[r]? with _ | sr
      · rw [step_request_dangling s page scale r hr hg]
        refine ⟨?_, ?_, ?_⟩
        · intro sid sess hget hph hc
          simp only at hget
          by_cases hlt : sid < s.sessions.length
          · rw [List.getElem?_append_left hlt] at hget
            have h2 := (hact sid sess hget hph hc).2
            rw [hr] at h2
            have : r = sid := by injection h2
            rw [this] at hg
            rw [hg] at hget
            exact absurd hget (by simp)
          · push_neg at hlt
            rw [List.getElem?_append_right hlt] at hget
            rcases hj : sid - s.sessions.length with _ | j
            · rw [hj] at hget
              simp [newSession] at hget
              rw [← hget] at hph
              simp at hph
            · rw [hj] at hget
              simp at hget
        · intro r0 h0
          exact absurd h0 (by simp)
        · intro sid sess hget hph
          simp only at hget ⊢
          by_cases hlt : sid < s.sessions.length
          · rw [List.getElem?_append_left hlt] at hget
            exact absurd hph (noAwaiting_spec hnoaw hget)
          · push_neg at hlt
            rw [List.getElem?_append_right hlt] at hget
            rcases hj : sid - s.sessions.length with _ | j
            · have : sid = s.sessions.length := by omega
              simp [this, List.length_append]
            · rw [hj] at hget
              simp at hget
      · rw [step_request_some s page scale r sr hr hg]
        have hrlt : r < s.sessions.length := sid_lt_length hg
        refine ⟨?_, ?_, ?_⟩
        · intro sid sess hget hph hc
          simp only at hget
          by_cases hlt : sid < (s.sessions.set r { sr with cancelled := true }).length
          · rw [List.getElem?_append_left hlt] at hget
            rw [List.length_set] at hlt
            by_cases hsr : r = sid
            · rw [← hsr] at hget
              rw [List.getElem?_set_self hrlt] at hget
              have hxs := Option.some.inj hget
              rw [← hxs] at hc
              simp at hc
            · rw [List.getElem?_set_ne hsr] at hget
              have h2 := (hact sid sess hget hph hc).2
              rw [hr] at h2
              have : r = sid := by injection h2
              exact absurd this hsr
          · push_neg at hlt
            rw [List.getElem?_append_right hlt] at hget
            rw [List.length_set] at hlt hget
            rcases hj : sid - s.sessions.length with _ | j
            · rw [hj] at hget
              simp [newSession] at hget
              rw [← hget] at hph
              simp at hph
            · rw [hj] at hget
              simp at hget
        · intro r0 h0
          exact absurd h0 (by simp)
        · intro sid sess hget hph
          simp only at hget ⊢
          by_cases hlt : sid < (s.sessions.set r { sr with cancelled := true }).length
          · rw [List.getElem?_append_left hlt] at hget
            by_cases hsr : r = sid
            · rw [← hsr] at hget
              rw [List.getElem?_set_self hrlt] at hget
              have hxs := Option.some.inj hget
              rw [← hxs] at hph
              have hph2 : sr.phase = Phase.awaitingGetPage := hph
              exact absurd hph2 (noAwaiting_spec hnoaw hg)
            · rw [List.getElem?_set_ne hsr] at hget
              exact absurd hph (noAwaiting_spec hnoaw hget)
          · push_neg at hlt
            rw [List.getElem?_append_right hlt] at hget
            rw [List.length_set] at hlt hget
            rcases hj : sid - s.sessions.length with _ | j
            · have : sid = s.sessions.length := by omega
              simp [this, List.length_append, List.length_set]
            · rw [hj] at hget
              simp at hget
  | pageReady sid0 =>
    rcases hg : s.sessions[sid0]? with _ | sess0
    · rw [step_pageReady_none s sid0 hg]; exact ⟨hact, href, hawait⟩
    · by_cases hph0 : sess0.phase = Phase.awaitingGetPage
      · rw [step_pageReady_eq s sid0 sess0 hg hph0]
        have hlt0 : sid0 < s.sessions.length := sid_lt_length hg
        have hlast : sid0 + 1 = s.sessions.length := hawait sid0 sess0 hg hph0
        refine ⟨?_, ?_, ?_⟩
        · intro j sess hget hph hc
          simp only at hget ⊢
          by_cases hj : sid0 = j
          · rw [← hj] at hget ⊢
            rw [List.getElem?_set_self hlt0] at hget
            rw [List.length_set]
            exact ⟨hlast, rfl⟩
          · rw [List.getElem?_set_ne hj] at hget
            have h1 := (hact j sess hget hph hc).1
            omega
        · intro r0 h0
          simp only at h0
          have : sid0 = r0 := by injection h0
          rw [← this]
          refine ⟨{ sess0 with phase := Phase.rastering }, ?_, by simp⟩
          simp only
          exact List.getElem?_set_self hlt0
        · intro j sess hget hph
          simp only at hget ⊢
          by_cases hj : sid0 = j
          · rw [← hj] at hget
            rw [List.getElem?_set_self hlt0] at hget
            have hxs := Option.some.inj hget
            rw [← hxs] at hph
            simp at hph
          · rw [List.getElem?_set_ne hj] at hget
            have := hawait j sess hget hph
            omega
      · rw [step_pageReady_skip s sid0 sess0 hg hph0]; exact ⟨hact, href, hawait⟩
  | rasterDone sid0 outcome =>
    rcases hg : s.sessions[sid0]? with _ | sess0
    · rw [step_rasterDone_none s sid0 outcome hg]; exact ⟨hact, href, hawait⟩
    · by_cases hph0 : sess0.phase = Phase.rastering
      · have hlt0 : sid0 < s.sessions.length := sid_lt_length hg
        have hhon2 : sess0.cancelled = true →
            outcome = Outcome.rejected "RenderingCancelledException" := by
          intro hc
          have h5 := hhon
          simp only [honorsHead, hg, hc] at h5
          simpa using h5
        cases outcome with
        | resolved =>
          have hc0 : sess0.cancelled = false := by
            by_contra hcc
            rw [Bool.not_eq_false] at hcc
            exact absurd (hhon2 hcc) (by simp)
          have hlast := (hact sid0 sess0 hg hph0 hc0).1
          rw [step_rasterDone_resolved s sid0 sess0 hg hph0]
          refine ⟨?_, ?_, ?_⟩
          · intro j sess hget hph hc
            simp only at hget
            by_cases hj : sid0 = j
            · rw [← hj] at hget
              rw [List.getElem?_set_self hlt0] at hget
              have hxs := Option.some.inj hget
              rw [← hxs] at hph
              simp at hph
            · rw [List.getElem?_set_ne hj] at hget
              have h1 := (hact j sess hget hph hc).1
              omega
          · intro r0 h0
            exact absurd h0 (by simp)
          · intro j sess hget hph
            simp only at hget ⊢
            by_cases hj : sid0 = j
            · rw [← hj] at hget
              rw [List.getElem?_set_self hlt0] at hget
              have hxs := Option.some.inj hget
              rw [← hxs] at hph
              simp at hph
            · rw [List.getElem?_set_ne hj] at hget
              have := hawait j sess hget hph
              omega
        | rejected name =>
          have hinvt : Inv { s with
              sessions := s.sessions.set sid0 { sess0 with phase := Phase.finished },
              events := s.events ++ [REvent.loadError name],
              loading := false } := by
            refine ⟨?_, ?_, ?_⟩
            · intro j sess hget hph hc
              simp only at hget ⊢
              by_cases hj : sid0 = j
              · rw [← hj] at hget
                rw [List.getElem?_set_self hlt0] at hget
                have hxs := Option.some.inj hget
                rw [← hxs] at hph
                simp at hph
              · rw [List.getElem?_set_ne hj] at hget
                have h1 := hact j sess hget hph hc
                rw [List.length_set]
                exact h1
            · intro r0 h0
              simp only at h0 ⊢
              obtain ⟨sess1, hg1, hph1⟩ := href r0 h0
              by_cases hj : sid0 = r0
              · rw [← hj]
                refine ⟨{ sess0 with phase := Phase.finished }, ?_, by simp⟩
                exact List.getElem?_set_self hlt0
              · exact ⟨sess1, by rw [List.getElem?_set_ne hj]; exact hg1, hph1⟩
            · intro j sess hget hph
              simp only at hget ⊢
              by_cases hj : sid0 = j
              · rw [← hj] at hget
                rw [List.getElem?_set_self hlt0] at hget
                have hxs := Option.some.inj hget
                rw [← hxs] at hph
                simp at hph
              · rw [List.getElem?_set_ne hj] at hget
                have := hawait j sess hget hph
                rw [List.length_set]
                exact this
          by_cases hname : name = "RenderingCancelledException"
          · rw [hname, step_rasterDone_cancelled s sid0 sess0 hg hph0]
            obtain ⟨h1, h2, h3⟩ := hinvt
            exact ⟨fun j sess hget hph hc => h1 j sess hget hph hc,
                   fun r0 h0 => h2 r0 h0, fun j sess hget hph => h3 j sess hget hph⟩
          · rw [step_rasterDone_failed s sid0 sess0 name hg hph0 hname]
            exact hinvt
      · rw [step_rasterDone_skip s sid0 outcome sess0 hg hph0]
        exact ⟨hact, href, hawait⟩

theorem staleHead_of_inv (s : RState) (e : ExtEvent) (hinv : Inv s)
    (hhon : honorsHead s e = true) : staleHead s e = true := by
  cases e with
  | request page scale => rfl
  | pageReady sid => rfl
  | rasterDone sid o =>
    rcases hg : s.sessions[sid]? with _ | sess
    · simp [staleHead, hg]
    · simp only [staleHead, hg]
      by_cases hcond : sess.phase = Phase.rastering ∧ sid + 1 ≠ s.sessions.length
      · rw [if_pos hcond]
        obtain ⟨hph, hlat⟩ := hcond
        have hc : sess.cancelled = true := by
          by_contra hcc
          rw [Bool.not_eq_true] at hcc
          exact hlat (hinv.1 sid sess hg hph hcc).1
        have ho : o = Outcome.rejected "RenderingCancelledException" := by
          have h5 := hhon
          simp only [honorsHead, hg, hc] at h5
          simpa using h5
        rw [ho, step_rasterDone_cancelled s sid sess hg hph]
        simp
      · rw [if_neg hcond]

theorem staleDiscarded_of_inv (tr : List ExtEvent) : ∀ s : RState, Inv s →
    seqStartsOK s tr = true → honorsCancelOK s tr = true →
    staleDiscarded s tr = true := by
  induction tr with
  | nil => intro s _ _ _; rfl
  | cons e tr ih =>
    intro s hinv hseq hhon
    simp only [seqStartsOK, Bool.and_eq_true] at hseq
    simp only [honorsCancelOK, Bool.and_eq_true] at hhon
    simp only [staleDiscarded, Bool.and_eq_true]
    exact ⟨staleHead_of_inv s e hinv hhon.1,
           ih (step s e) (inv_step s e hinv hseq.1 hhon.1) hseq.2 hhon.2⟩

/-! ### C1 — only the latest request commits -/

/-- C1 counterexample: with out-of-order completion and a backend that lets
a cancelled raster resolve, the superseded first request commits after the
latest one — it emits a second page-committed callback and overwrites the
canvas with page 1 although the last request was for page 2. The code has no
latest-session check at completion time, so the claim as stated fails. -/
theorem stale_result_commits_out_of_order :
    staleDiscarded initialRState trOutOfOrder = false ∧
    (run trOutOfOrder).events = [REvent.pageChange 2, REvent.pageChange 1] ∧
    (run trOutOfOrder).canvas = some (1, 1) := by decide

/-- C1 (amended): discarding of superseded renders is achieved through
cancellation, not through a latest-session check: provided every render
request is issued only after the previous render's page fetch has completed,
and the backend honors cancellation (a cancelled raster always rejects with
`RenderingCancelledException`), every completion of a live session that is
no longer the latest requested one produces no visual update and no
callback, so only the result of the last request is ever committed. -/
theorem stale_results_discarded (tr : List ExtEvent)
    (hseq : seqStartsOK initialRState tr = true)
    (hhon : honorsCancelOK initialRState tr = true) :
    staleDiscarded initialRState tr = true :=
  staleDiscarded_of_inv tr initialRState inv_init hseq hhon

/-- C1 witness: a trace with two overlapping requests where the backend
honors cancellation satisfies both hypotheses, and the stale completion is
discarded. -/
theorem stale_results_discarded_witness :
    seqStartsOK initialRState trSupersede = true ∧
    honorsCancelOK initialRState trSupersede = true ∧
    staleDiscarded initialRState trSupersede = true :=
  ⟨by decide, by decide, stale_results_discarded trSupersede (by decide) (by decide)⟩

/-! ### C2 — cancelled sessions and late success -/

/-- C2 counterexample: session 0 is cancelled by a newer request, yet when
its raster resolves successfully afterwards the code emits its
page-committed callback and updates the canvas — the discard does rely on
cancellation taking effect, contradicting the claim. -/
theorem cancelled_resolve_still_commits :
    cancelledSilent initialRState trCancelledResolves = false ∧
    (run trCancelledResolves).events = [REvent.pageChange 1] ∧
    (run trCancelledResolves).canvas = some (1, 1) := by decide

/-- C2 (amended): for a cancelled session whose raster is outstanding, the
discard happens exactly when the raster rejects with
`RenderingCancelledException`: a rejection is swallowed with no visual
update and no callback, but a successful resolution still commits (visual
update plus page-committed callback), so correctness relies on the backend
honoring cancellation. -/
theorem cancelled_discard_needs_rejection (s : RState) (sid : Nat)
    (sess : Session) (hget : s.sessions[sid]? = some sess)
    (hph : sess.phase = Phase.rastering) (_hc : sess.cancelled = true) :
    (step s (ExtEvent.rasterDone sid Outcome.resolved)).events =
      s.events ++ [REvent.pageChange sess.page] ∧
    (step s (ExtEvent.rasterDone sid Outcome.resolved)).canvas =
      some (sess.page, sess.scale) ∧
    (step s (ExtEvent.rasterDone sid
        (Outcome.rejected "RenderingCancelledException"))).events = s.events ∧
    (step s (ExtEvent.rasterDone sid
        (Outcome.rejected "RenderingCancelledException"))).canvas = s.canvas := by
  rw [step_rasterDone_resolved s sid sess hget hph,
      step_rasterDone_cancelled s sid sess hget hph]
  exact ⟨rfl, rfl, rfl, rfl⟩

/-- C2 witness: the amended statement at the state in which session 0 has
been cancelled by a second request. -/
theorem cancelled_discard_needs_rejection_witness :
    (step (run trCancelPrefix) (ExtEvent.rasterDone 0 Outcome.resolved)).events =
      (run trCancelPrefix).events ++ [REvent.pageChange 1] ∧
    (step (run trCancelPrefix) (ExtEvent.rasterDone 0 Outcome.resolved)).canvas =
      some (1, 1) ∧
    (step (run trCancelPrefix) (ExtEvent.rasterDone 0
        (Outcome.rejected "RenderingCancelledException"))).events =
      (run trCancelPrefix).events ∧
    (step (run trCancelPrefix) (ExtEvent.rasterDone 0
        (Outcome.rejected "RenderingCancelledException"))).canvas =
      (run trCancelPrefix).canvas :=
  cancelled_discard_needs_rejection (run trCancelPrefix) 0
    { page := 1, scale := 1, phase := Phase.rastering, cancelled := true }
    (by decide) rfl rfl

/-! ### C3 — failure surfacing -/

/-- C3 counterexample: a superseded session that fails with a
non-cancellation error still surfaces the error event although it is no
longer the latest requested session — the code checks only the error name,
never session identity. -/
theorem stale_failure_still_surfaced :
    errorsOnlyLatest initialRState trStaleError = false ∧
    (run trStaleError).events = [REvent.loadError "RenderError"] := by decide

/-- C3 (amended): when a raster fails with the cancellation error the
failure is swallowed (no user-visible error); when it fails with any other
error, exactly one error event is surfaced — regardless of whether the
failing session is still the latest requested one. -/
theorem raster_failure_surfacing (s : RState) (sid : Nat) (sess : Session)
    (name : String) (hget : s.sessions[sid]? = some sess)
    (hph : sess.phase = Phase.rastering) :
    (step s (ExtEvent.rasterDone sid (Outcome.rejected name))).events =
      (if name = "RenderingCancelledException" then s.events
       else s.events ++ [REvent.loadError name]) := by
  by_cases hname : name = "RenderingCancelledException"
  · rw [if_pos hname, hname, step_rasterDone_cancelled s sid sess hget hph]
  · rw [if_neg hname, step_rasterDone_failed s sid sess name hget hph hname]

/-- C3 witness: the amended statement at a state with one outstanding
raster, failing with a generic error name. -/
theorem raster_failure_surfacing_witness :
    (step (run trOneRastering)
        (ExtEvent.rasterDone 0 (Outcome.rejected "RenderError"))).events =
      (if "RenderError" = "RenderingCancelledException"
       then (run trOneRastering).events
       else (run trOneRastering).events ++ [REvent.loadError "RenderError"]) :=
  raster_failure_surfacing (run trOneRastering) 0
    { page := 1, scale := 1, phase := Phase.rastering, cancelled := false }
    "RenderError" (by decide) rfl

end Ply
